import Mathlib

/-!
Shallow embedding of `ImprovedWolframLanguageClient`
(src/wolfram_language_server/wolfram_client.py) and verification of the
session-lifecycle / execution-engine specification.

Modelling conventions:
* Kernel values are abstract (`WVal`); the "failed/aborted" sentinel that a
  kernel may *return* (rather than raise) is `WVal.failedSentinel`.
* Each kernel call either returns a value after `dur` time units, raises an
  exception after `dur` time units, or hangs forever (`KResp`).
* The external kernel binding's behaviour during one client operation is an
  oracle `KernelBeh`: per creation attempt `i` it says whether the
  constructor raises, how the probe evaluation (`wl.Plus(1,1)`) and the
  warm-up evaluation (`$Version`) respond, how the liveness probe on an
  existing session responds, and how the real evaluation of the caller's
  code responds.
* Time is a `Nat` clock threaded through the functions; measured elapsed
  times are differences of this clock, exactly like `time.time()` deltas.
* `asyncio.Lock` is not reentrant: an `async with self._session_lock` from a
  task already holding the lock blocks forever.  The model threads a `held`
  flag and produces `ERes.deadlock` in that case.
* A kernel call that never returns makes `_ensure_session` (which has no
  timeout) block forever: `ERes.hung`.
-/

namespace WClient

/-- Abstract kernel value.  `failedSentinel` models a `$Failed`/`$Aborted`
style sentinel returned (not raised) by the kernel. -/
inductive WVal where
  | normal (n : Nat)
  | failedSentinel
  deriving DecidableEq, Repr

/-- Response of one kernel call: a value after `dur` time units, a raised
exception after `dur` time units, or a call that never returns. -/
inductive KResp where
  | val (v : WVal) (dur : Nat)
  | exn (msg : String) (dur : Nat)
  | hang
  deriving DecidableEq, Repr

/-- Oracle for the kernel binding's behaviour, indexed by creation attempt
number where relevant. -/
structure KernelBeh where
  /-- does the `WolframLanguageSession(...)` constructor raise at attempt `i`? -/
  createRaises : Nat → Bool
  /-- duration of the constructor call at attempt `i` -/
  createDur : Nat → Nat
  /-- response of the probe evaluation `wl.Plus(1,1)` at attempt `i` -/
  probeResp : Nat → KResp
  /-- response of the warm-up evaluation `$Version` at attempt `i` -/
  warmResp : Nat → KResp
  /-- response of the liveness probe on an already-existing session -/
  aliveResp : KResp
  /-- response of evaluating the caller's code (`wlexpr(code)` parse failures
  included as `exn`) -/
  evalResp : KResp

/-- Client state: the fields of `ImprovedWolframLanguageClient` the claims
are about.  `session` holds an opaque handle id, `nextHandle` supplies fresh
ids, `sessionInit` models `_session_initialized`, `lastActivity` models
`_last_activity`. -/
structure ClientState where
  session : Option Nat
  sessionInit : Bool
  lastActivity : Nat
  nextHandle : Nat
  deriving DecidableEq, Repr

/-- State after `__init__` (constructed at time `t0`). -/
def initState (t0 : Nat) : ClientState :=
  { session := none, sessionInit := false, lastActivity := t0, nextHandle := 0 }

/-- default `max_retries` (line 35 of wolfram_client.py) -/
def defaultMaxRetries : Nat := 3

/-- Observable actions on the kernel binding, recorded as a trace. -/
inductive Action where
  | createFail
  | create (h : Nat)
  | probe (h : Nat)
  | warmup (h : Nat)
  | terminate (h : Nat)
  | sleep (d : Nat)
  | evalCode (h : Nat)
  deriving DecidableEq, Repr

/-- Result of `_ensure_session`: a returned boolean with the final state,
final clock and trace; a deadlock on re-acquiring the non-reentrant session
lock; or an untimed kernel call that never returns. -/
inductive ERes where
  | ok (b : Bool) (st : ClientState) (t : Nat) (tr : List Action)
  | deadlock (st : ClientState) (t : Nat) (tr : List Action)
  | hung (st : ClientState) (tr : List Action)
  deriving DecidableEq, Repr

/-- The `except` branch of a creation attempt (lines 80-87): terminate the
partially-created handle if one is set (best effort, exception swallowed)
and clear the reference. -/
def clearSession (st : ClientState) (tr : List Action) : ClientState × List Action :=
  match st.session with
  | some h => ({ st with session := none }, tr ++ [Action.terminate h])
  | none => (st, tr)

/-- The creation retry loop (lines 51-93): `for attempt in range(max_retries)`.
`remaining` is the number of attempts left, `i` the 0-based attempt index,
`now` the clock, `tr` the trace so far.  On attempt failure, if further
attempts remain, sleep `2 ^ i` (exponential backoff, line 90) and retry;
otherwise return `false`.  Falling out of the loop (only possible when
`max_retries = 0`) reaches the `return False` at line 108. -/
def attemptLoop (beh : KernelBeh) : Nat → Nat → ClientState → Nat → List Action → ERes
  | 0, _, st, now, tr => ERes.ok false st now tr
  | r + 1, i, st, now, tr =>
    if beh.createRaises i then
      -- constructor raised; `self._session` keeps its previous value
      let p := clearSession st (tr ++ [Action.createFail])
      if r > 0 then
        attemptLoop beh r (i + 1) p.1 (now + beh.createDur i + 2 ^ i)
          (p.2 ++ [Action.sleep (2 ^ i)])
      else ERes.ok false p.1 (now + beh.createDur i) p.2
    else
      let h := st.nextHandle
      let st1 : ClientState := { st with session := some h, nextHandle := h + 1 }
      let tr1 := tr ++ [Action.create h, Action.probe h]
      let now1 := now + beh.createDur i
      match beh.probeResp i with
      | KResp.hang => ERes.hung st1 tr1
      | KResp.exn _ d =>
        let p := clearSession st1 tr1
        if r > 0 then
          attemptLoop beh r (i + 1) p.1 (now1 + d + 2 ^ i)
            (p.2 ++ [Action.sleep (2 ^ i)])
        else ERes.ok false p.1 (now1 + d) p.2
      | KResp.val _ d =>
        let now2 := now1 + d
        let tr2 := tr1 ++ [Action.warmup h]
        match beh.warmResp i with
        | KResp.hang => ERes.hung st1 tr2
        | KResp.exn _ d2 =>
          let p := clearSession st1 tr2
          if r > 0 then
            attemptLoop beh r (i + 1) p.1 (now2 + d2 + 2 ^ i)
              (p.2 ++ [Action.sleep (2 ^ i)])
          else ERes.ok false p.1 (now2 + d2) p.2
        | KResp.val _ d2 =>
          ERes.ok true
            { st1 with sessionInit := true, lastActivity := now2 + d2 }
            (now2 + d2) tr2

/-- Model of `_ensure_session` (lines 44-108) with an explicit lock-held flag.
`held = true` models re-entering `async with self._session_lock` from the
task that already holds it: `asyncio.Lock` is not reentrant, so the
acquisition blocks forever.  The recursive self-call at line 106 passes
`held := true` because the outer call still holds the lock. -/
def ensure_session_go (beh : KernelBeh) (m : Nat) (now : Nat) (st : ClientState)
    (tr : List Action) (held : Bool) : ERes :=
  if held then ERes.deadlock st now tr
  else
    match st.session, st.sessionInit with
    | none, _ => attemptLoop beh m 0 st now tr
    | some _, false => attemptLoop beh m 0 st now tr
    | some h, true =>
      -- session exists and is marked ready: liveness probe (lines 96-101)
      match beh.aliveResp with
      | KResp.val _ d =>
        ERes.ok true { st with lastActivity := now + d } (now + d)
          (tr ++ [Action.probe h])
      | KResp.exn _ d =>
        -- health check failed: drop the reference (no terminate!) and
        -- recursively re-enter _ensure_session while still holding the lock
        ensure_session_go beh m (now + d)
          { st with session := none, sessionInit := false }
          (tr ++ [Action.probe h]) true
      | KResp.hang => ERes.hung st (tr ++ [Action.probe h])
termination_by if held then 0 else 1
decreasing_by simp_all

/-- Entry point of `_ensure_session` as called from outside: lock free, empty trace. -/
def ensure_session (beh : KernelBeh) (m : Nat) (now : Nat) (st : ClientState) : ERes :=
  ensure_session_go beh m now st [] false

/-- The tuple `(success, result, error_message, execution_time)` returned by
`execute_wolfram_code`. -/
structure Outcome where
  success : Bool
  result : Option WVal
  error : Option String
  elapsed : Nat
  deriving DecidableEq, Repr

/-- Result of `execute_wolfram_code`: an outcome with the final client state
and trace, or a call that never returns (deadlock or untimed hang inside
`_ensure_session`). -/
inductive XRes where
  | out (o : Outcome) (st : ClientState) (tr : List Action)
  | diverge (st : ClientState) (tr : List Action)
  deriving DecidableEq, Repr

/-- Model of `execute_wolfram_code` (lines 110-153).  `start_time` is taken before
`_ensure_session`; the `asyncio.wait_for` timer of length `timeout` starts
when the evaluation is submitted; an evaluation that raises within the
timeout is caught by the outer `except` and stringified. -/
def execute_wolfram_code (beh : KernelBeh) (m : Nat) (timeout : Nat) (now : Nat)
    (st : ClientState) : XRes :=
  let start := now
  match ensure_session_go beh m now st [] false with
  | ERes.deadlock st' _ tr => XRes.diverge st' tr
  | ERes.hung st' tr => XRes.diverge st' tr
  | ERes.ok false st' _ tr =>
    XRes.out { success := false, result := none,
               error := some "Failed to establish Wolfram session",
               elapsed := 0 } st' tr
  | ERes.ok true st' t1 tr =>
    match st'.session with
    | none =>
      -- `self._session.evaluate` on a cleared handle would raise; caught by
      -- the outer except (dead code on reachable states, kept for fidelity)
      XRes.out { success := false, result := none,
                 error := some "NoneType has no attribute evaluate",
                 elapsed := t1 - start } st' tr
    | some h =>
      match beh.evalResp with
      | KResp.val v d =>
        if d ≤ timeout then
          XRes.out { success := true, result := some v, error := none,
                     elapsed := t1 + d - start } st' (tr ++ [Action.evalCode h])
        else
          XRes.out { success := false, result := none,
                     error := some ("Execution timed out after " ++
                       toString timeout ++ " seconds"),
                     elapsed := t1 + timeout - start } st' (tr ++ [Action.evalCode h])
      | KResp.exn msg d =>
        if d ≤ timeout then
          XRes.out { success := false, result := none, error := some msg,
                     elapsed := t1 + d - start } st' (tr ++ [Action.evalCode h])
        else
          XRes.out { success := false, result := none,
                     error := some ("Execution timed out after " ++
                       toString timeout ++ " seconds"),
                     elapsed := t1 + timeout - start } st' (tr ++ [Action.evalCode h])
      | KResp.hang =>
        XRes.out { success := false, result := none,
                   error := some ("Execution timed out after " ++
                     toString timeout ++ " seconds"),
                   elapsed := t1 + timeout - start } st' (tr ++ [Action.evalCode h])

/-- Model of `close` (lines 220-235): terminate the session if present (exception
swallowed), then clear handle and flag in the `finally` block. -/
def close (st : ClientState) : ClientState × List Action :=
  match st.session with
  | some h =>
    ({ st with session := none, sessionInit := false }, [Action.terminate h])
  | none => (st, [])

/-- the `session_active` field computed by `get_session_info` (line 203) -/
def session_active (st : ClientState) : Bool :=
  st.session.isSome && st.sessionInit

/-- Projection: the outcome of an `execute_wolfram_code` run, when it returns. -/
def outcomeOf : XRes → Option Outcome
  | XRes.out o _ _ => some o
  | XRes.diverge _ _ => none

/-- the backoff sleeps recorded in a trace, in order -/
def sleepsIn (tr : List Action) : List Nat :=
  tr.filterMap fun a =>
    match a with
    | Action.sleep d => some d
    | _ => none

/-- the terminate calls recorded in a trace, in order -/
def terminatesIn (tr : List Action) : List Nat :=
  tr.filterMap fun a =>
    match a with
    | Action.terminate h => some h
    | _ => none

/-- number of creation attempts (constructor calls, raising or not) in a trace -/
def createAttempts (tr : List Action) : Nat :=
  (tr.filter fun a =>
    match a with
    | Action.createFail => true
    | Action.create _ => true
    | _ => false).length

/-- attempt `i` of the creation loop fails (constructor, probe or warm-up
raises) rather than hanging or succeeding -/
def attemptFails (beh : KernelBeh) (i : Nat) : Prop :=
  beh.createRaises i = true ∨
  (beh.createRaises i = false ∧ ∃ msg d, beh.probeResp i = KResp.exn msg d) ∨
  (beh.createRaises i = false ∧ (∃ v d, beh.probeResp i = KResp.val v d) ∧
    ∃ msg d, beh.warmResp i = KResp.exn msg d)

/-- attempt `i` of the creation loop fully succeeds -/
def attemptSucceeds (beh : KernelBeh) (i : Nat) : Prop :=
  beh.createRaises i = false ∧
  (∃ v d, beh.probeResp i = KResp.val v d) ∧
  ∃ v d, beh.warmResp i = KResp.val v d

/-- the `asyncio.wait_for` timer of length `timeout` fires before the
submitted evaluation completes -/
def timerFiresFirst (resp : KResp) (timeout : Nat) : Prop :=
  resp = KResp.hang ∨
  (∃ v d, resp = KResp.val v d ∧ timeout < d) ∨
  (∃ msg d, resp = KResp.exn msg d ∧ timeout < d)

/-- The state invariant of claim C10: a session marked ready has a handle. -/
def Inv (st : ClientState) : Prop :=
  st.sessionInit = true → st.session.isSome

/-- client state carried by an `_ensure_session` result -/
def stateOfE : ERes → ClientState
  | ERes.ok _ s _ _ => s
  | ERes.deadlock s _ _ => s
  | ERes.hung s _ => s

/-- Reachable client states: the state after `__init__`, closed under
`_ensure_session`, `execute_wolfram_code` and `close`. -/
inductive Reachable : ClientState → Prop where
  | init (t0 : Nat) : Reachable (initState t0)
  | ensure (beh : KernelBeh) (m now : Nat) {st : ClientState}
      (hst : Reachable st) : Reachable (stateOfE (ensure_session beh m now st))
  | exec_out {st : ClientState} (beh : KernelBeh) (m timeout now : Nat)
      {o : Outcome} {st' : ClientState} {tr : List Action} (hst : Reachable st)
      (h : execute_wolfram_code beh m timeout now st = XRes.out o st' tr) :
      Reachable st'
  | exec_div {st : ClientState} (beh : KernelBeh) (m timeout now : Nat)
      {st' : ClientState} {tr : List Action} (hst : Reachable st)
      (h : execute_wolfram_code beh m timeout now st = XRes.diverge st' tr) :
      Reachable st'
  | close_op {st : ClientState} (hst : Reachable st) : Reachable (close st).1

/-! Concrete kernel behaviours used to exercise the model. -/

/-- a kernel that answers everything instantly and correctly -/
def behGood : KernelBeh :=
  { createRaises := fun _ => false, createDur := fun _ => 0,
    probeResp := fun _ => KResp.val (WVal.normal 2) 0,
    warmResp := fun _ => KResp.val (WVal.normal 14) 0,
    aliveResp := KResp.val (WVal.normal 2) 0,
    evalResp := KResp.val (WVal.normal 4) 0 }

/-- a healthy kernel whose evaluation *returns* the failed/aborted sentinel
instead of raising -/
def behSent : KernelBeh := { behGood with evalResp := KResp.val WVal.failedSentinel 0 }

/-- a kernel whose session constructor raises on every attempt -/
def behAllFail : KernelBeh := { behGood with createRaises := fun _ => true }

/-- a kernel that raises on the liveness probe of an existing session -/
def behDeadProbe : KernelBeh := { behGood with aliveResp := KResp.exn "socket closed" 0 }

/-- another kernel that raises on the liveness probe (slower transport error) -/
def behDeadProbe2 : KernelBeh := { behGood with aliveResp := KResp.exn "broken pipe" 2 }

/-- a kernel whose constructor raises exactly once, on the first attempt -/
def behFailOnce : KernelBeh := { behGood with createRaises := fun i => i == 0 }

/-- a healthy kernel whose real evaluation blocks forever -/
def behEvalHang : KernelBeh := { behGood with evalResp := KResp.hang }

/-! ### Helper lemmas -/

@[simp]
theorem clearSession_session (st : ClientState) (tr : List Action) :
    ((clearSession st tr).1).session = none := by
  cases h : st.session <;> simp [clearSession, h]

@[simp]
theorem clearSession_init (st : ClientState) (tr : List Action) :
    ((clearSession st tr).1).sessionInit = st.sessionInit := by
  cases h : st.session <;> simp [clearSession, h]

/-- the creation loop reports `true` only with a ready state holding a handle -/
theorem attemptLoop_ok_true {beh : KernelBeh} :
    ∀ (r i : Nat) (st : ClientState) (now : Nat) (tr : List Action)
      {st' : ClientState} {t' : Nat} {tr' : List Action},
      attemptLoop beh r i st now tr = ERes.ok true st' t' tr' →
      st'.sessionInit = true ∧ ∃ h, st'.session = some h := by
  intro r
  induction r with
  | zero =>
    intro i st now tr st' t' tr' h
    simp [attemptLoop] at h
  | succ r ih =>
    intro i st now tr st' t' tr' h
    simp only [attemptLoop] at h
    split at h
    · split at h
      · exact ih _ _ _ _ h
      · simp at h
    · split at h
      · simp at h
      · split at h
        · exact ih _ _ _ _ h
        · simp at h
      · split at h
        · simp at h
        · split at h
          · exact ih _ _ _ _ h
          · simp at h
        · cases h
          exact ⟨rfl, _, rfl⟩

/-- the creation loop preserves the ready-implies-handle invariant -/
theorem attemptLoop_inv {beh : KernelBeh} :
    ∀ (r i : Nat) (st : ClientState) (now : Nat) (tr : List Action),
      st.sessionInit = false →
      Inv (stateOfE (attemptLoop beh r i st now tr)) := by
  intro r
  induction r with
  | zero =>
    intro i st now tr h0
    simp [attemptLoop, stateOfE, Inv, h0]
  | succ r ih =>
    intro i st now tr h0
    simp only [attemptLoop]
    split
    · split
      · exact ih _ _ _ _ (by simp [h0])
      · simp [stateOfE, Inv, h0]
    · split
      · simp [stateOfE, Inv, h0]
      · split
        · exact ih _ _ _ _ (by simp [h0])
        · simp [stateOfE, Inv, h0]
      · split
        · simp [stateOfE, Inv, h0]
        · split
          · exact ih _ _ _ _ (by simp [h0])
          · simp [stateOfE, Inv, h0]
        · simp [stateOfE, Inv]

/-- Lemma: `_ensure_session` reports `true` only with a ready state holding a handle -/
theorem ensure_go_ok_true {beh : KernelBeh} {m now : Nat} {st : ClientState}
    {tr : List Action} {held : Bool} {st' : ClientState} {t' : Nat}
    {tr' : List Action}
    (h : ensure_session_go beh m now st tr held = ERes.ok true st' t' tr') :
    st'.sessionInit = true ∧ ∃ hdl, st'.session = some hdl := by
  rw [ensure_session_go] at h
  split at h
  · simp at h
  · split at h
    · exact attemptLoop_ok_true _ _ _ _ _ h
    · exact attemptLoop_ok_true _ _ _ _ _ h
    · rename_i hdl hs hi
      split at h
      · cases h
        exact ⟨hi, _, hs⟩
      · rw [ensure_session_go] at h
        simp at h
      · simp at h

/-- Lemma: `_ensure_session` preserves the ready-implies-handle invariant, whatever
the kernel does -/
theorem ensure_go_inv {beh : KernelBeh} {m now : Nat} {st : ClientState}
    {tr : List Action} {held : Bool} (hst : Inv st) :
    Inv (stateOfE (ensure_session_go beh m now st tr held)) := by
  rw [ensure_session_go]
  split
  · simpa [stateOfE]
  · split
    · rename_i hs
      refine attemptLoop_inv _ _ _ _ _ ?_
      by_contra hne
      have hi : st.sessionInit = true := by
        cases hb : st.sessionInit
        · exact absurd hb hne
        · rfl
      have := hst hi
      rw [hs] at this
      simp at this
    · rename_i hs hi
      exact attemptLoop_inv _ _ _ _ _ hi
    · rename_i hdl hs hi
      split
      · intro _
        simp [stateOfE, hs]
      · rw [ensure_session_go]
        intro hcontra
        simp [stateOfE] at hcontra
      · simpa [stateOfE]

/-- arithmetic of the exponential backoff schedule -/
theorem sleeps_shift (i r : Nat) :
    (List.range (r+1)).map (fun j => 2 ^ (i + j)) =
    2 ^ i :: (List.range r).map (fun j => 2 ^ (i + 1 + j)) := by
  rw [List.range_succ_eq_map, List.map_cons, List.map_map, Nat.add_zero]
  refine congrArg (List.cons (2 ^ i)) ?_
  refine List.map_congr_left fun j _ => ?_
  simp only [Function.comp_apply, Nat.succ_eq_add_one]
  rw [show i + (j + 1) = i + 1 + j by omega]

/-- When every creation attempt fails, the retry loop returns `false` with
the handle cleared, sleeps exactly `2 ^ i` between consecutive attempts, and
never sleeps after the final attempt (the last recorded action is not a
sleep). -/
theorem attemptLoop_allFail {beh : KernelBeh} :
    ∀ (r i : Nat) (st : ClientState) (now : Nat) (tr : List Action),
      (∀ j, j ≤ r → attemptFails beh (i + j)) →
      ∃ st' t' tr',
        attemptLoop beh (r+1) i st now tr = ERes.ok false st' t' (tr ++ tr') ∧
        st'.session = none ∧ st'.sessionInit = st.sessionInit ∧
        sleepsIn tr' = (List.range r).map (fun j => 2 ^ (i + j)) ∧
        ∃ a, tr'.getLast? = some a ∧ ∀ d, a ≠ Action.sleep d := by
  intro r
  induction r with
  | zero =>
    intro i st now tr h
    have hf := h 0 (Nat.le_refl 0)
    rw [Nat.add_zero] at hf
    rcases hf with hc | ⟨hc, msg, dd, hp⟩ | ⟨hc, ⟨pv, pd, hp⟩, msg, dd, hw⟩
    · cases hs : st.session with
      | none =>
        exact ⟨st, now + beh.createDur i, [Action.createFail],
          by simp [attemptLoop, clearSession, hc, hs],
          hs, rfl, by simp [sleepsIn], Action.createFail, by simp, by simp⟩
      | some hdl =>
        exact ⟨{ st with session := none }, now + beh.createDur i,
          [Action.createFail, Action.terminate hdl],
          by simp [attemptLoop, clearSession, hc, hs], rfl, rfl,
          by simp [sleepsIn], Action.terminate hdl, by simp, by simp⟩
    · exact ⟨{ st with session := none, nextHandle := st.nextHandle + 1 },
        now + beh.createDur i + dd,
        [Action.create st.nextHandle, Action.probe st.nextHandle,
          Action.terminate st.nextHandle],
        by simp [attemptLoop, clearSession, hc, hp], rfl, rfl,
        by simp [sleepsIn], Action.terminate st.nextHandle, by simp, by simp⟩
    · exact ⟨{ st with session := none, nextHandle := st.nextHandle + 1 },
        now + beh.createDur i + pd + dd,
        [Action.create st.nextHandle, Action.probe st.nextHandle,
          Action.warmup st.nextHandle, Action.terminate st.nextHandle],
        by simp [attemptLoop, clearSession, hc, hp, hw], rfl, rfl,
        by simp [sleepsIn], Action.terminate st.nextHandle, by simp, by simp⟩
  | succ r ih =>
    intro i st now tr h
    have hf := h 0 (Nat.zero_le _)
    rw [Nat.add_zero] at hf
    have hrest : ∀ j, j ≤ r → attemptFails beh (i + 1 + j) := by
      intro j hj
      have := h (j+1) (by omega)
      rwa [show i + (j+1) = i + 1 + j by omega] at this
    rcases hf with hc | ⟨hc, msg, dd, hp⟩ | ⟨hc, ⟨pv, pd, hp⟩, msg, dd, hw⟩
    · cases hs : st.session with
      | none =>
        obtain ⟨st', t', tr'', heq, h1, h2, h3, a, h4, h5⟩ :=
          ih (i+1) st (now + beh.createDur i + 2 ^ i)
            ((tr ++ [Action.createFail]) ++ [Action.sleep (2 ^ i)]) hrest
        refine ⟨st', t', [Action.createFail, Action.sleep (2 ^ i)] ++ tr'',
          ?_, h1, h2, ?_, a, ?_, h5⟩
        · rw [attemptLoop]
          simpa [hc, hs, clearSession] using heq
        · rw [sleeps_shift]
          simpa [sleepsIn] using h3
        · rw [List.getLast?_append, h4]
          rfl
      | some hdl =>
        obtain ⟨st', t', tr'', heq, h1, h2, h3, a, h4, h5⟩ :=
          ih (i+1) { st with session := none } (now + beh.createDur i + 2 ^ i)
            ((tr ++ [Action.createFail] ++ [Action.terminate hdl]) ++ [Action.sleep (2 ^ i)]) hrest
        refine ⟨st', t', [Action.createFail, Action.terminate hdl, Action.sleep (2 ^ i)] ++ tr'',
          ?_, h1, by simpa using h2, ?_, a, ?_, h5⟩
        · rw [attemptLoop]
          simpa [hc, hs, clearSession] using heq
        · rw [sleeps_shift]
          simpa [sleepsIn] using h3
        · rw [List.getLast?_append, h4]
          rfl
    · obtain ⟨st', t', tr'', heq, h1, h2, h3, a, h4, h5⟩ :=
        ih (i+1) { st with session := none, nextHandle := st.nextHandle + 1 }
          (now + beh.createDur i + dd + 2 ^ i)
          ((tr ++ [Action.create st.nextHandle, Action.probe st.nextHandle]
            ++ [Action.terminate st.nextHandle]) ++ [Action.sleep (2 ^ i)]) hrest
      refine ⟨st', t', [Action.create st.nextHandle, Action.probe st.nextHandle,
          Action.terminate st.nextHandle, Action.sleep (2 ^ i)] ++ tr'',
        ?_, h1, by simpa using h2, ?_, a, ?_, h5⟩
      · rw [attemptLoop]
        simpa [hc, hp, clearSession] using heq
      · rw [sleeps_shift]
        simpa [sleepsIn] using h3
      · rw [List.getLast?_append, h4]
        rfl
    · obtain ⟨st', t', tr'', heq, h1, h2, h3, a, h4, h5⟩ :=
        ih (i+1) { st with session := none, nextHandle := st.nextHandle + 1 }
          (now + beh.createDur i + pd + dd + 2 ^ i)
          ((tr ++ [Action.create st.nextHandle, Action.probe st.nextHandle]
            ++ [Action.warmup st.nextHandle] ++ [Action.terminate st.nextHandle])
            ++ [Action.sleep (2 ^ i)]) hrest
      refine ⟨st', t', [Action.create st.nextHandle, Action.probe st.nextHandle,
          Action.warmup st.nextHandle, Action.terminate st.nextHandle,
          Action.sleep (2 ^ i)] ++ tr'',
        ?_, h1, by simpa using h2, ?_, a, ?_, h5⟩
      · rw [attemptLoop]
        simpa [hc, hp, hw, clearSession] using heq
      · rw [sleeps_shift]
        simpa [sleepsIn] using h3
      · rw [List.getLast?_append, h4]
        rfl

/-! ### Claim C1 -/

/-- C1 counterexample: with a healthy session and a kernel evaluation that
*returns* the failed/aborted sentinel (within the timeout) rather than
raising, `execute_wolfram_code` reports `success = true` with the sentinel as
result and no error — not `success = false` with error `"evaluation failed"`
as the claim states. -/
theorem C1_counterexample :
    outcomeOf (execute_wolfram_code behSent 3 30 0 (initState 0)) =
      some { success := true, result := some WVal.failedSentinel,
             error := none, elapsed := 0 } := by
  simp [execute_wolfram_code, ensure_session_go, attemptLoop, clearSession,
    outcomeOf, behSent, behGood, initState]

/-- C1 (amended): whenever the kernel evaluation returns the failed/aborted
sentinel value within the timeout (rather than raising), and the session was
established, `execute_wolfram_code` returns `success = true`, `result =` the
sentinel, no error, and `elapsed =` the measured time; the code contains no
sentinel detection and never produces an `"evaluation failed"` error. -/
theorem C1_sentinel_passthrough (beh : KernelBeh) (m timeout now : Nat)
    (st st' : ClientState) (t1 : Nat) (tr : List Action) (hdl d : Nat)
    (hens : ensure_session beh m now st = ERes.ok true st' t1 tr)
    (hses : st'.session = some hdl)
    (heval : beh.evalResp = KResp.val WVal.failedSentinel d)
    (hd : d ≤ timeout) :
    execute_wolfram_code beh m timeout now st =
      XRes.out { success := true, result := some WVal.failedSentinel,
                 error := none, elapsed := t1 + d - now } st'
        (tr ++ [Action.evalCode hdl]) := by
  unfold ensure_session at hens
  unfold execute_wolfram_code
  rw [hens]
  simp only [hses, heval, if_pos hd]

/-- C1 witness -/
theorem C1_witness :
    ensure_session behSent 3 0 (initState 0) =
      ERes.ok true ⟨some 0, true, 0, 1⟩ 0
        [Action.create 0, Action.probe 0, Action.warmup 0] ∧
    behSent.evalResp = KResp.val WVal.failedSentinel 0 ∧
    execute_wolfram_code behSent 3 30 0 (initState 0) =
      XRes.out { success := true, result := some WVal.failedSentinel,
                 error := none, elapsed := 0 } ⟨some 0, true, 0, 1⟩
        [Action.create 0, Action.probe 0, Action.warmup 0, Action.evalCode 0] := by
  have h1 : ensure_session behSent 3 0 (initState 0) =
      ERes.ok true ⟨some 0, true, 0, 1⟩ 0
        [Action.create 0, Action.probe 0, Action.warmup 0] := by
    simp [ensure_session, ensure_session_go, attemptLoop, clearSession,
      behSent, behGood, initState]
  exact ⟨h1, rfl,
    C1_sentinel_passthrough behSent 3 30 0 (initState 0) _ _ _ 0 0 h1 rfl rfl
      (by decide)⟩

/-! ### Claim C2 -/

/-- C2 counterexample: an Outcome produced by `execute_wolfram_code` with
`success = true` whose result is the kernel's failure sentinel — so
`success = true` does *not* imply the result is present in a non-failure
form, refuting the claimed equivalence. -/
theorem C2_counterexample :
    outcomeOf (execute_wolfram_code behSent 3 10 2 (initState 1)) =
      some { success := true, result := some WVal.failedSentinel,
             error := none, elapsed := 0 } := by
  simp [execute_wolfram_code, ensure_session_go, attemptLoop, clearSession,
    outcomeOf, behSent, behGood, initState]

/-- C2 (amended): for every Outcome returned by `execute_wolfram_code`,
`success = true` iff `error` is absent; `success = true` implies a result is
present (though possibly the kernel's failure sentinel); and
`success = false` implies the result is absent and an error is present. -/
theorem C2_outcome_invariant (beh : KernelBeh) (m timeout now : Nat)
    (st : ClientState) (o : Outcome) (st' : ClientState) (tr : List Action)
    (h : execute_wolfram_code beh m timeout now st = XRes.out o st' tr) :
    (o.success = true ↔ o.error = none) ∧
    (o.success = true → o.result.isSome) ∧
    (o.success = false → o.result = none ∧ o.error.isSome) := by
  unfold execute_wolfram_code at h
  repeat' split at h
  all_goals cases h <;> simp

/-- C2 witness -/
theorem C2_witness :
    execute_wolfram_code behGood 3 30 0 (initState 0) =
      XRes.out { success := true, result := some (WVal.normal 4),
                 error := none, elapsed := 0 } ⟨some 0, true, 0, 1⟩
        [Action.create 0, Action.probe 0, Action.warmup 0, Action.evalCode 0] ∧
    (({ success := true, result := some (WVal.normal 4),
        error := none, elapsed := 0 } : Outcome).success = true ↔
      ({ success := true, result := some (WVal.normal 4),
         error := none, elapsed := 0 } : Outcome).error = none) := by
  have h : execute_wolfram_code behGood 3 30 0 (initState 0) =
      XRes.out { success := true, result := some (WVal.normal 4),
                 error := none, elapsed := 0 } ⟨some 0, true, 0, 1⟩
        [Action.create 0, Action.probe 0, Action.warmup 0, Action.evalCode 0] := by
    simp [execute_wolfram_code, ensure_session_go, attemptLoop, clearSession,
      behGood, initState]
  exact ⟨h, (C2_outcome_invariant behGood 3 30 0 (initState 0) _ _ _ h).1⟩

/-! ### Claim C3 -/

/-- C3: evaluating the code at the failing input.  With a READY session
(handle 7) whose liveness probe raises, the next `execute_wolfram_code` call
does not recreate the session and return a result: the recursive
`_ensure_session` call at line 106 re-acquires the non-reentrant
`asyncio.Lock` already held by the outer call and blocks forever, so the
call diverges; moreover `terminate()` is never invoked on the old dead
handle — its reference is simply dropped (lines 104-105). -/
theorem C3_dead_probe_no_recovery :
    execute_wolfram_code behDeadProbe 3 30 0 ⟨some 7, true, 0, 8⟩ =
      XRes.diverge ⟨none, false, 0, 8⟩ [Action.probe 7] ∧
    terminatesIn [Action.probe 7] = [] := by
  constructor
  · simp [execute_wolfram_code, ensure_session_go, behDeadProbe, behGood]
  · rfl

/-! ### Claim C4 -/

/-- C4: evaluating the code at the failing input.  When the liveness probe
of an existing READY session fails, `_ensure_session` does *not* terminate
with `true` or `false`: the recursive call re-enters
`async with self._session_lock` while the lock is still held by the same
task, and `asyncio.Lock` is not reentrant, so the call blocks forever
(deadlock) — refuting the claimed termination. -/
theorem C4_ensure_session_deadlocks :
    ensure_session behDeadProbe2 3 5 ⟨some 9, true, 0, 10⟩ =
      ERes.deadlock ⟨none, false, 0, 10⟩ 7 [Action.probe 9] := by
  simp [ensure_session, ensure_session_go, behDeadProbe2, behGood]

/-! ### Claim C5 -/

/-- C5: if session creation fails on all `maxRetries` attempts,
`_ensure_session` returns `false`, the session handle reference is cleared,
and the backoff sleeps recorded in the trace are exactly
`2 ^ 0, …, 2 ^ (maxRetries - 2)` — one between each pair of consecutive
attempts — and the last recorded action is not a sleep (no sleep after the
final failed attempt). -/
theorem C5_retry_exhaustion (beh : KernelBeh) (m now t0 : Nat) (hm : 0 < m)
    (hfail : ∀ j, j < m → attemptFails beh j) :
    ∃ st' t' tr,
      ensure_session beh m now (initState t0) = ERes.ok false st' t' tr ∧
      st'.session = none ∧ st'.sessionInit = false ∧
      sleepsIn tr = (List.range (m - 1)).map (fun j => 2 ^ j) ∧
      ∃ a, tr.getLast? = some a ∧ ∀ d, a ≠ Action.sleep d := by
  obtain ⟨r, rfl⟩ : ∃ r, m = r + 1 := ⟨m - 1, by omega⟩
  have h0 : ensure_session beh (r + 1) now (initState t0) =
      attemptLoop beh (r + 1) 0 (initState t0) now [] := by
    simp [ensure_session, ensure_session_go, initState]
  obtain ⟨st', t', tr', heq, hs, hi, hsl, ha⟩ :=
    attemptLoop_allFail r 0 (initState t0) now []
      (fun j hj => by simpa using hfail j (by omega))
  refine ⟨st', t', tr', ?_, hs, by simpa [initState] using hi, ?_, ha⟩
  · rw [h0, heq]
    simp
  · simpa using hsl

/-- C5 witness -/
theorem C5_witness :
    0 < 3 ∧ (∀ j, j < 3 → attemptFails behAllFail j) ∧
    (∃ st' t' tr,
      ensure_session behAllFail 3 11 (initState 4) = ERes.ok false st' t' tr ∧
      st'.session = none ∧ st'.sessionInit = false ∧
      sleepsIn tr = (List.range 2).map (fun j => 2 ^ j) ∧
      ∃ a, tr.getLast? = some a ∧ ∀ d, a ≠ Action.sleep d) :=
  ⟨by decide, fun j _ => Or.inl rfl,
    C5_retry_exhaustion behAllFail 3 11 4 (by decide) (fun j _ => Or.inl rfl)⟩

/-! ### Claim C6 -/

/-- C6: if session creation fails exactly once (in any of its three failure
modes) and the second attempt fully succeeds, `_ensure_session` returns
`true` after exactly 2 creation attempts; the probe and warm-up evaluations
of the successful handle appear in the trace, and the resulting state is
READY: `_session_initialized` set and `_last_activity` stamped with the
completion time. -/
theorem C6_fail_once_then_succeed (beh : KernelBeh) (now t0 : Nat)
    (h0 : attemptFails beh 0) (h1 : attemptSucceeds beh 1) :
    ∃ st' T tr,
      ensure_session beh 3 now (initState t0) = ERes.ok true st' T tr ∧
      st'.sessionInit = true ∧ st'.lastActivity = T ∧
      createAttempts tr = 2 ∧
      ∃ hdl, st'.session = some hdl ∧
        Action.probe hdl ∈ tr ∧ Action.warmup hdl ∈ tr := by
  obtain ⟨hc1, ⟨v, d, hp1⟩, w, d2, hw1⟩ := h1
  rcases h0 with hc0 | ⟨hc0, msg, dd, hp0⟩ | ⟨hc0, ⟨pv, pd, hp0⟩, msg, dd, hw0⟩
  · refine ⟨⟨some 0, true, now + beh.createDur 0 + 1 + beh.createDur 1 + d + d2, 1⟩,
      now + beh.createDur 0 + 1 + beh.createDur 1 + d + d2,
      [Action.createFail, Action.sleep 1, Action.create 0, Action.probe 0,
        Action.warmup 0],
      ?_, rfl, rfl, rfl, 0, rfl, by simp, by simp⟩
    simp [ensure_session, ensure_session_go, attemptLoop, clearSession,
      initState, hc0, hc1, hp1, hw1]
  · refine ⟨⟨some 1, true, now + beh.createDur 0 + dd + 1 + beh.createDur 1 + d + d2, 2⟩,
      now + beh.createDur 0 + dd + 1 + beh.createDur 1 + d + d2,
      [Action.create 0, Action.probe 0, Action.terminate 0, Action.sleep 1,
        Action.create 1, Action.probe 1, Action.warmup 1],
      ?_, rfl, rfl, rfl, 1, rfl, by simp, by simp⟩
    simp [ensure_session, ensure_session_go, attemptLoop, clearSession,
      initState, hc0, hc1, hp1, hw1, hp0]
  · refine ⟨⟨some 1, true, now + beh.createDur 0 + pd + dd + 1 + beh.createDur 1 + d + d2, 2⟩,
      now + beh.createDur 0 + pd + dd + 1 + beh.createDur 1 + d + d2,
      [Action.create 0, Action.probe 0, Action.warmup 0, Action.terminate 0,
        Action.sleep 1, Action.create 1, Action.probe 1, Action.warmup 1],
      ?_, rfl, rfl, rfl, 1, rfl, by simp, by simp⟩
    simp [ensure_session, ensure_session_go, attemptLoop, clearSession,
      initState, hc0, hc1, hp1, hw1, hp0, hw0]

/-- C6 witness -/
theorem C6_witness :
    attemptFails behFailOnce 0 ∧ attemptSucceeds behFailOnce 1 ∧
    (∃ st' T tr,
      ensure_session behFailOnce 3 0 (initState 0) = ERes.ok true st' T tr ∧
      st'.sessionInit = true ∧ st'.lastActivity = T ∧
      createAttempts tr = 2 ∧
      ∃ hdl, st'.session = some hdl ∧
        Action.probe hdl ∈ tr ∧ Action.warmup hdl ∈ tr) :=
  ⟨Or.inl rfl, ⟨rfl, ⟨WVal.normal 2, 0, rfl⟩, WVal.normal 14, 0, rfl⟩,
    C6_fail_once_then_succeed behFailOnce 0 0 (Or.inl rfl)
      ⟨rfl, ⟨WVal.normal 2, 0, rfl⟩, WVal.normal 14, 0, rfl⟩⟩

/-! ### Claim C7 -/

/-- C7 counterexample: an input (READY session whose liveness probe raises)
on which `execute_wolfram_code` returns no Outcome at all — the call
diverges inside `_ensure_session`'s lock re-acquisition — refuting
"every path returns a tagged Outcome tuple". -/
theorem C7_counterexample :
    outcomeOf (execute_wolfram_code behDeadProbe2 3 30 5 ⟨some 11, true, 5, 12⟩) =
      none := by
  simp [execute_wolfram_code, ensure_session_go, outcomeOf, behDeadProbe2, behGood]

/-- C7 (amended): on every path where `_ensure_session` terminates,
`execute_wolfram_code` never raises: it returns a tagged Outcome tuple; and
when `_ensure_session` returns `false` the Outcome is `success = false`,
error `"Failed to establish Wolfram session"` (a session-unavailable
message) and `elapsed = 0`. -/
theorem C7_total_when_ensure_returns (beh : KernelBeh) (m timeout now : Nat)
    (st : ClientState) (b : Bool) (st' : ClientState) (t1 : Nat)
    (tr : List Action)
    (hens : ensure_session beh m now st = ERes.ok b st' t1 tr) :
    (∃ o st2 tr2, execute_wolfram_code beh m timeout now st = XRes.out o st2 tr2) ∧
    (b = false →
      execute_wolfram_code beh m timeout now st =
        XRes.out { success := false, result := none,
                   error := some "Failed to establish Wolfram session",
                   elapsed := 0 } st' tr) := by
  unfold ensure_session at hens
  constructor
  · unfold execute_wolfram_code
    rw [hens]
    cases b
    · exact ⟨_, _, _, rfl⟩
    · cases hs : st'.session with
      | none =>
        exact ⟨{ success := false, result := none,
                 error := some "NoneType has no attribute evaluate",
                 elapsed := t1 - now }, st', tr, by simp [hs]⟩
      | some hdl =>
        cases hv : beh.evalResp with
        | val v d =>
          by_cases hd : d ≤ timeout
          · exact ⟨{ success := true, result := some v, error := none,
                     elapsed := t1 + d - now }, st',
              tr ++ [Action.evalCode hdl], by simp [hs, hv, hd]⟩
          · exact ⟨{ success := false, result := none,
                     error := some ("Execution timed out after " ++
                       toString timeout ++ " seconds"),
                     elapsed := t1 + timeout - now }, st',
              tr ++ [Action.evalCode hdl], by simp [hs, hv, hd]⟩
        | exn msg d =>
          by_cases hd : d ≤ timeout
          · exact ⟨{ success := false, result := none, error := some msg,
                     elapsed := t1 + d - now }, st',
              tr ++ [Action.evalCode hdl], by simp [hs, hv, hd]⟩
          · exact ⟨{ success := false, result := none,
                     error := some ("Execution timed out after " ++
                       toString timeout ++ " seconds"),
                     elapsed := t1 + timeout - now }, st',
              tr ++ [Action.evalCode hdl], by simp [hs, hv, hd]⟩
        | hang =>
          exact ⟨{ success := false, result := none,
                   error := some ("Execution timed out after " ++
                     toString timeout ++ " seconds"),
                   elapsed := t1 + timeout - now }, st',
            tr ++ [Action.evalCode hdl], by simp [hs, hv]⟩
  · intro hb
    subst hb
    unfold execute_wolfram_code
    rw [hens]

/-- C7 witness -/
theorem C7_witness :
    ensure_session behAllFail 3 0 (initState 0) =
      ERes.ok false ⟨none, false, 0, 0⟩ 3
        [Action.createFail, Action.sleep 1, Action.createFail, Action.sleep 2,
          Action.createFail] ∧
    execute_wolfram_code behAllFail 3 30 0 (initState 0) =
      XRes.out { success := false, result := none,
                 error := some "Failed to establish Wolfram session",
                 elapsed := 0 } ⟨none, false, 0, 0⟩
        [Action.createFail, Action.sleep 1, Action.createFail, Action.sleep 2,
          Action.createFail] := by
  have h : ensure_session behAllFail 3 0 (initState 0) =
      ERes.ok false ⟨none, false, 0, 0⟩ 3
        [Action.createFail, Action.sleep 1, Action.createFail, Action.sleep 2,
          Action.createFail] := by
    simp [ensure_session, ensure_session_go, attemptLoop, clearSession,
      behAllFail, behGood, initState]
  exact ⟨h, (C7_total_when_ensure_returns behAllFail 3 30 0 (initState 0)
    false _ 3 _ h).2 rfl⟩

/-! ### Claim C8 -/

/-- C8: if the `asyncio.wait_for` timer fires before the kernel evaluation
completes (it hangs or takes longer than the timeout), and the session was
established, `execute_wolfram_code` returns `success = false`, the error
message `"Execution timed out after N seconds"` with `N` the requested
timeout, and `elapsed` the measured wall-clock time — session-establishment
time plus the timeout. -/
theorem C8_timeout_outcome (beh : KernelBeh) (m timeout now : Nat)
    (st st' : ClientState) (t1 : Nat) (tr : List Action) (hdl : Nat)
    (hens : ensure_session beh m now st = ERes.ok true st' t1 tr)
    (hses : st'.session = some hdl)
    (hfires : timerFiresFirst beh.evalResp timeout) :
    execute_wolfram_code beh m timeout now st =
      XRes.out { success := false, result := none,
                 error := some ("Execution timed out after " ++
                   toString timeout ++ " seconds"),
                 elapsed := t1 + timeout - now } st'
        (tr ++ [Action.evalCode hdl]) := by
  unfold ensure_session at hens
  unfold execute_wolfram_code
  rw [hens]
  rcases hfires with hh | ⟨v, d, hv, hd⟩ | ⟨msg, d, hv, hd⟩
  · simp only [hses, hh]
  · simp only [hses, hv, if_neg (by omega : ¬ d ≤ timeout)]
  · simp only [hses, hv, if_neg (by omega : ¬ d ≤ timeout)]

/-- C8 witness -/
theorem C8_witness :
    ensure_session behEvalHang 3 0 (initState 0) =
      ERes.ok true ⟨some 0, true, 0, 1⟩ 0
        [Action.create 0, Action.probe 0, Action.warmup 0] ∧
    timerFiresFirst behEvalHang.evalResp 1 ∧
    execute_wolfram_code behEvalHang 3 1 0 (initState 0) =
      XRes.out { success := false, result := none,
                 error := some "Execution timed out after 1 seconds",
                 elapsed := 1 } ⟨some 0, true, 0, 1⟩
        [Action.create 0, Action.probe 0, Action.warmup 0, Action.evalCode 0] := by
  have h : ensure_session behEvalHang 3 0 (initState 0) =
      ERes.ok true ⟨some 0, true, 0, 1⟩ 0
        [Action.create 0, Action.probe 0, Action.warmup 0] := by
    simp [ensure_session, ensure_session_go, attemptLoop, clearSession,
      behEvalHang, behGood, initState]
  exact ⟨h, Or.inl rfl,
    C8_timeout_outcome behEvalHang 3 1 0 (initState 0) _ 0 _ 0 h rfl (Or.inl rfl)⟩

/-! ### Claim C10 -/

/-- the state returned by `execute_wolfram_code` alongside an Outcome is
the state produced by the `_ensure_session` call inside it -/
theorem execute_out_state (beh : KernelBeh) (m timeout now : Nat)
    (st : ClientState) {o : Outcome} {st' : ClientState} {tr : List Action}
    (hx : execute_wolfram_code beh m timeout now st = XRes.out o st' tr) :
    st' = stateOfE (ensure_session_go beh m now st [] false) := by
  unfold execute_wolfram_code at hx
  repeat' split at hx
  all_goals cases hx
  all_goals simp_all [stateOfE]

/-- likewise for a diverging `execute_wolfram_code` call -/
theorem execute_div_state (beh : KernelBeh) (m timeout now : Nat)
    (st : ClientState) {st' : ClientState} {tr : List Action}
    (hx : execute_wolfram_code beh m timeout now st = XRes.diverge st' tr) :
    st' = stateOfE (ensure_session_go beh m now st [] false) := by
  unfold execute_wolfram_code at hx
  repeat' split at hx
  all_goals cases hx
  all_goals simp_all [stateOfE]

/-- C10: the invariant "`_session_initialized = true` implies `_session` is
set" holds after `__init__` and is preserved by every operation
(`_ensure_session` on all success, failure, deadlock and hang paths,
`execute_wolfram_code`, `close`); and `get_session_info` reports
`session_active = true` only when a handle actually exists. -/
theorem C10_ready_implies_handle (st : ClientState) (h : Reachable st) :
    Inv st ∧ (session_active st = true → st.session.isSome) := by
  have hInv : Inv st := by
    induction h with
    | init t0 =>
      intro hi
      simp [initState] at hi
    | ensure beh m now hst ih =>
      exact ensure_go_inv ih
    | @exec_out st beh m timeout now o st' tr hst hx ih =>
      rw [execute_out_state beh m timeout now st hx]
      exact ensure_go_inv ih
    | @exec_div st beh m timeout now st' tr hst hx ih =>
      rw [execute_div_state beh m timeout now st hx]
      exact ensure_go_inv ih
    | @close_op st hst ih =>
      intro hi
      rcases hs : st.session with _ | hdl
      · simp only [close, hs] at hi ⊢
        exact absurd (ih hi) (by simp [hs])
      · simp [close, hs] at hi
  refine ⟨hInv, fun ha => ?_⟩
  simp only [session_active, Bool.and_eq_true] at ha
  exact ha.1

/-- C10 witness -/
theorem C10_witness :
    Inv (initState 3) ∧
    (session_active (initState 3) = true → (initState 3).session.isSome) :=
  C10_ready_implies_handle (initState 3) (Reachable.init 3)

end WClient
